import Mathlib

/-!
Shallow embedding of the scheduling / budget-enforcement / weight-optimization
core of the `dumbvideo` repository (directory `mvp/`), together with theorems
settling the spec claims about it.

Monetary amounts and weights are Python floats in the source; they are embedded
as exact rationals (`ℚ`).  Database sessions are embedded as explicit state
values; commit/rollback behaviour is made explicit where a claim depends on it.
-/

namespace DumbVideo

/-- The closed set of production categories (`VideoFormat` in
`app/config/schema.py` / `app/db/models.py`). -/
inductive VideoFormat
  | talkingObject
  | absurdMotivation
  | nothingHappens
deriving DecidableEq, BEq, Repr

/-- The fixed enumeration of all formats, in declaration order
(`for fmt in VideoFormat` in the Python source iterates in this order). -/
def allFormats : List VideoFormat :=
  [VideoFormat.talkingObject, VideoFormat.absurdMotivation, VideoFormat.nothingHappens]

/-- Job lifecycle statuses (`VideoStatus` in `app/db/models.py`). -/
inductive VideoStatus
  | pending
  | generating
  | rendering
  | uploading
  | completed
  | failed
  | rejected
deriving DecidableEq, BEq, Repr

/-! ## Cost model (`app/utils/pricing.py`, class `CostCalculator`) -/

/-- Embeds `CostCalculator.usd_to_eur`. -/
def usd_to_eur : ℚ := 93 / 100

/-- Embeds `CostCalculator.estimate_episode_generation_cost` at its default
arguments (model `gpt-4o`: input 5 USD per 1M tokens, output 15 USD per 1M
tokens; 500 input tokens, 1500 output tokens), converted to EUR. -/
def estimate_episode_generation_cost : ℚ :=
  ((500 : ℚ) / 1000000 * 5 + (1500 : ℚ) / 1000000 * 15) * usd_to_eur

/-- Embeds `CostCalculator.estimate_image_generation_cost` at its default
arguments (`dall-e-3`, quality `standard`: 0.04 USD per image), converted to
EUR. -/
def estimate_image_generation_cost : ℚ :=
  (4 / 100 : ℚ) * usd_to_eur

/-- Embeds `CostCalculator.estimate_tts_cost` (`tts-1`: 0.015 USD per 1000
characters) for a text of `tts_length` characters, converted to EUR. -/
def estimate_tts_cost (tts_length : ℕ) : ℚ :=
  ((tts_length : ℚ) / 1000) * ((15 / 1000 / 1000 : ℚ) * 1000) * usd_to_eur

/-- Embeds `CostCalculator.estimate_total_video_cost`: episode generation cost
plus image generation cost plus TTS cost.  The `format` and `script_length`
arguments appear in the Python signature but are never used in the
computation. -/
def estimate_total_video_cost (format : VideoFormat)
    (script_length tts_length : ℕ) : ℚ :=
  estimate_episode_generation_cost + estimate_image_generation_cost +
    estimate_tts_cost tts_length

/-- Outcome message of `CostCalculator.check_budget_compliance`, abstracting
the three English message strings the function can return on its normal
paths. -/
inductive ComplianceReason
  | maxVideosReached
  | budgetExceeded
  | compliant
deriving DecidableEq, Repr

/-- Embeds `CostCalculator.check_budget_compliance(daily_cost, budget,
video_count, max_videos)`: the video-count limit is checked first, then the
budget limit. -/
def check_budget_compliance (daily_cost budget : ℚ)
    (video_count max_videos : ℕ) : Bool × ComplianceReason :=
  if video_count ≥ max_videos then
    (false, ComplianceReason.maxVideosReached)
  else if daily_cost ≥ budget then
    (false, ComplianceReason.budgetExceeded)
  else
    (true, ComplianceReason.compliant)

/-! ## Scheduler (`app/services/scheduler/job_scheduler.py`, class
`JobScheduler`) -/

/-- Embeds `JobScheduler.max_daily_videos` (the daily item cap, hard-coded to
3). -/
def max_daily_videos : ℕ := 3

/-- Embeds `JobScheduler._calculate_available_job_slots`:
`max(0, max_daily_videos − daily_jobs)` where `daily_jobs` counts the Job rows
created today.  Natural subtraction truncates at zero exactly like the
`max(0, ...)` in the source. -/
def calculate_available_job_slots (daily_jobs : ℕ) : ℕ :=
  max_daily_videos - daily_jobs

/-- Embeds the per-slot loop of `JobScheduler.schedule_jobs`.  `pick` stands
in for the weighted random draw of `_select_format_based_on_weights` (slot `i`
receives format `pick i`); each slot estimates the cost of the drawn format
(at the default script and TTS lengths, as `schedule_jobs` passes no others),
breaks out of the loop when that estimate exceeds the remaining in-cycle
budget, and otherwise records the job and decrements the budget tracker.
Returns the scheduled jobs as (format, estimated cost) pairs. -/
def schedule_loop (pick : ℕ → VideoFormat) :
    ℕ → ℚ → ℕ → List (VideoFormat × ℚ)
  | 0, _, _ => []
  | n + 1, budget_remaining, i =>
    if estimate_total_video_cost (pick i) 150 100 > budget_remaining then []
    else
      (pick i, estimate_total_video_cost (pick i) 150 100) ::
        schedule_loop pick n
          (budget_remaining - estimate_total_video_cost (pick i) 150 100)
          (i + 1)

/-- Embeds `JobScheduler.schedule_jobs(session, max_jobs, budget_remaining)`:
attempts `min(max_jobs, _calculate_available_job_slots(session))` slots, where
`daily_jobs` is the number of Job rows created today in the store behind the
session. -/
def schedule_jobs (pick : ℕ → VideoFormat) (max_jobs : ℕ)
    (budget_remaining : ℚ) (daily_jobs : ℕ) : List (VideoFormat × ℚ) :=
  schedule_loop pick (min max_jobs (calculate_available_job_slots daily_jobs))
    budget_remaining 0

/-! ## Job creation and cost tracking, with commit/rollback made explicit
(`JobScheduler._create_job` and `JobScheduler._update_cost_tracking`) -/

/-- Embeds the daily `CostTracking` row (`app/db/models.py`). -/
structure CostTracking where
  openai_cost : ℚ
  total_cost : ℚ
  video_count : ℕ
deriving DecidableEq, Repr

/-- The committed state the two persistence steps of `_create_job` touch:
the number of Job rows created today and the `CostTracking` row for today
(taken as already present; `_update_cost_tracking` creates it lazily with
all-zero totals, so an absent row behaves like `⟨0, 0, 0⟩`). -/
structure SchedulerDb where
  job_count : ℕ
  cost_tracking : CostTracking
deriving DecidableEq, Repr

/-- Which (if any) of the two `session.commit()` calls inside
`_create_job` / `_update_cost_tracking` fails when the persistence layer
errors. -/
inductive PersistFailure
  | noFailure
  | jobCommitFails
  | costCommitFails
deriving DecidableEq, Repr

/-- Embeds `JobScheduler._update_cost_tracking(session, cost)`: adds `cost` to
the `openai_cost` and `total_cost` accumulators and increments `video_count`,
then commits.  When that commit fails, `session.rollback()` discards the
uncommitted ledger modifications and a `SchedulingError` is raised, so the
ledger is left unchanged and the step reports failure (`false`). -/
def update_cost_tracking (db : SchedulerDb) (cost : ℚ)
    (fp : PersistFailure) : SchedulerDb × Bool :=
  if fp = PersistFailure.costCommitFails then
    (db, false)
  else
    (SchedulerDb.mk db.job_count
      (CostTracking.mk (db.cost_tracking.openai_cost + cost)
        (db.cost_tracking.total_cost + cost)
        (db.cost_tracking.video_count + 1)),
      true)

/-- Embeds `JobScheduler._create_job(session, format, estimated_cost)`: adds
the Job row and commits it, then calls `_update_cost_tracking`.  When the job
commit itself fails, `session.rollback()` undoes the pending insert and
nothing is persisted.  When instead the cost-tracking commit fails, the job
commit has already been made durable by the first `session.commit()`; the
`session.rollback()` in the exception handler can only discard the pending
ledger update, after which the raised `SchedulingError` aborts the cycle.
Returns the resulting committed state and whether the step succeeded. -/
def create_job (db : SchedulerDb) (estimated_cost : ℚ)
    (fp : PersistFailure) : SchedulerDb × Bool :=
  if fp = PersistFailure.jobCommitFails then
    (db, false)
  else
    update_cost_tracking
      (SchedulerDb.mk (db.job_count + 1) db.cost_tracking) estimated_cost fp

/-! ## Weight store (`FormatWeight` rows in `app/db/models.py`) -/

/-- One `FormatWeight` row: the weight and the last-change reason (the
`last_updated` timestamp is irrelevant to the claims and omitted). -/
structure WeightRecord where
  weight : ℚ
  reason : String
deriving DecidableEq, Repr

/-- The weight store: at most one `FormatWeight` row per format. -/
def WeightStore : Type := VideoFormat → Option WeightRecord

/-- Embeds `FormatOptimizer._get_current_weights` composed with the
`current_weights.get(fmt, 1.0)` lookups its callers perform: the stored weight
when a row exists for the format, else the default `1.0`. -/
def get_current_weight (store : WeightStore) (f : VideoFormat) : ℚ :=
  match store f with
  | some r => r.weight
  | none => 1

/-- Embeds `FormatOptimizer._apply_new_weights(session, new_weights)` on its
success path: every format with an existing row has that row updated in place
with reason `"Automatic optimization based on performance"`, and every format
without one gets a new row with reason `"Initial optimization setup"`.
(A commit failure rolls the whole write back and raises.) -/
def apply_new_weights (store : WeightStore) (new_weights : VideoFormat → ℚ) :
    WeightStore :=
  fun f =>
    match store f with
    | some _ =>
      some (WeightRecord.mk (new_weights f)
        "Automatic optimization based on performance")
    | none =>
      some (WeightRecord.mk (new_weights f) "Initial optimization setup")

/-! ## Weight optimizer (`app/services/optimization/format_optimizer.py`,
class `FormatOptimizer`) -/

/-- Embeds `FormatOptimizer.min_samples`. -/
def min_samples : ℕ := 3

/-- Embeds `FormatOptimizer.max_adjustment`. -/
def max_adjustment : ℚ := 2 / 10

/-- One format entry of `MetricsCollector.get_format_performance`: sample
count, average view percentage and average view count (the `avg_score` field
of that dictionary is unused by `_calculate_new_weights` and omitted). -/
structure FormatPerf where
  count : ℕ
  avg_pct : ℚ
  avg_views : ℚ
deriving DecidableEq, Repr

/-- The per-format performance score of `_calculate_new_weights`:
`0.6 * avg_pct + 0.3 * avg_views + 0.1 * count` when the format has samples,
`0` otherwise. -/
def performance_score (d : FormatPerf) : ℚ :=
  if 0 < d.count then
    (6 / 10) * d.avg_pct + (3 / 10) * d.avg_views + (1 / 10) * (d.count : ℚ)
  else 0

/-- Embeds `total_score` in `_calculate_new_weights`: the sum of the
performance scores over all formats. -/
def total_score (perf : VideoFormat → FormatPerf) : ℚ :=
  (allFormats.map (fun f => performance_score (perf f))).sum

/-- One format, pre-renormalization, in `_calculate_new_weights`: the target
weight is the normalized score share, the adjustment is the target minus the
current weight clamped to `±max_adjustment`, and the result is floored at
`0.1`. -/
def raw_new_weight (perf : VideoFormat → FormatPerf)
    (current_weights : VideoFormat → ℚ) (f : VideoFormat) : ℚ :=
  max (1 / 10)
    (current_weights f +
      min max_adjustment
        (max (-max_adjustment)
          (performance_score (perf f) / total_score perf - current_weights f)))

/-- Embeds `total_new_weight` in `_calculate_new_weights`: the sum of the
pre-renormalization weights over all formats. -/
def total_new_weight (perf : VideoFormat → FormatPerf)
    (current_weights : VideoFormat → ℚ) : ℚ :=
  (allFormats.map (raw_new_weight perf current_weights)).sum

/-- Embeds `FormatOptimizer._calculate_new_weights(performance,
current_weights)`: returns the current weights unchanged when the total score
is zero; otherwise computes the clamped, floored per-format weights and, when
their sum is positive, rescales them so that they sum to the number of
formats (`len(new_weights)` = 3, as the construction loop ranges over every
`VideoFormat`). -/
def calculate_new_weights (perf : VideoFormat → FormatPerf)
    (current_weights : VideoFormat → ℚ) : VideoFormat → ℚ :=
  if total_score perf = 0 then current_weights
  else if 0 < total_new_weight perf current_weights then
    fun f =>
      raw_new_weight perf current_weights f /
        total_new_weight perf current_weights * 3
  else raw_new_weight perf current_weights

/-- Embeds `FormatOptimizer.optimize_format_weights(session)`: sums the sample
counts of all formats; below `min_samples` it returns status
`"insufficient_data"` without touching the weight store, otherwise it computes
the new weights from the stored ones and applies them. -/
def optimize_format_weights (perf : VideoFormat → FormatPerf)
    (store : WeightStore) : String × WeightStore :=
  if (allFormats.map (fun f => (perf f).count)).sum < min_samples then
    ("insufficient_data", store)
  else
    ("success",
      apply_new_weights store
        (calculate_new_weights perf (get_current_weight store)))

/-- The weight of one format after the adjustment loop of
`FormatOptimizer.manual_optimization`: adjusted formats get
`max(0.1, current + adjustment)`, the rest keep their current weight. -/
def manual_adjusted_weight (current_weights : VideoFormat → ℚ)
    (adjustments : VideoFormat → Option ℚ) (f : VideoFormat) : ℚ :=
  match adjustments f with
  | some a => max (1 / 10) (current_weights f + a)
  | none => current_weights f

/-- The normalization step of `FormatOptimizer.manual_optimization`: when the
adjusted weights have positive sum, each is rescaled so the set sums to the
number of categories (3); otherwise the adjusted weights are kept as-is. -/
def manual_new_weights (store : WeightStore)
    (adjustments : VideoFormat → Option ℚ) : VideoFormat → ℚ :=
  if 0 < (allFormats.map
      (manual_adjusted_weight (get_current_weight store) adjustments)).sum then
    fun f =>
      manual_adjusted_weight (get_current_weight store) adjustments f /
        (allFormats.map
          (manual_adjusted_weight (get_current_weight store) adjustments)).sum
        * 3
  else manual_adjusted_weight (get_current_weight store) adjustments

/-- Embeds `FormatOptimizer.manual_optimization(session, adjustments)`: reads
the current weights, applies the raw additive adjustments with the `0.1`
floor, renormalizes, persists via `_apply_new_weights`, and reports status
`"success"`.  No cooldown or sample-count check appears anywhere on this path.
(The store is taken to hold a row for every category — the state every
persisted run of `_apply_new_weights` leaves behind — so the weights
dictionary read from it is total and `len(current_weights)` is 3.) -/
def manual_optimization (store : WeightStore)
    (adjustments : VideoFormat → Option ℚ) : String × WeightStore :=
  ("success", apply_new_weights store (manual_new_weights store adjustments))

/-! ## Daily job counts (`JobScheduler._calculate_available_job_slots` versus
`Worker._schedule_new_jobs` in `scripts/run_worker.py`) -/

/-- A Job row as the two daily-count queries see it: whether its `created_at`
falls on today, and its lifecycle status. -/
structure JobRow where
  created_today : Bool
  status : VideoStatus
deriving DecidableEq, Repr

/-- Embeds the count in `JobScheduler._calculate_available_job_slots` (and in
`JobScheduler.check_budget_compliance`): all Job rows created today, whatever
their status. -/
def scheduler_daily_job_count (jobs : List JobRow) : ℕ :=
  (jobs.filter (fun j => j.created_today)).length

/-- Embeds the count in `Worker._schedule_new_jobs`: Job rows created today
whose status is not `FAILED`. -/
def worker_daily_video_count (jobs : List JobRow) : ℕ :=
  (jobs.filter (fun j =>
    j.created_today && !(j.status == VideoStatus.failed))).length

/-! ## Helper lemmas -/

/-- A sum over the three formats, written out. -/
theorem sum_allFormats (g : VideoFormat → ℚ) :
    (allFormats.map g).sum =
      g VideoFormat.talkingObject + g VideoFormat.absurdMotivation +
        g VideoFormat.nothingHappens := by
  simp [allFormats]
  ring

/-- Whatever branch `_apply_new_weights` takes for a format, the weight it
persists is the new weight handed to it. -/
theorem apply_new_weights_weight (store : WeightStore)
    (new_weights : VideoFormat → ℚ) (f : VideoFormat) :
    (apply_new_weights store new_weights f).elim 0 WeightRecord.weight =
      new_weights f := by
  unfold apply_new_weights
  cases store f <;> rfl

/-! ## Claim theorems -/

/-- C9: the per-video cost estimate is independent of the category — for every
pair of formats (with the default script and TTS lengths, and in fact for any
lengths) `estimate_total_video_cost` returns the same amount, so every
category has the same estimated cost. -/
theorem estimate_total_video_cost_format_independent :
    (∀ f1 f2 : VideoFormat,
      estimate_total_video_cost f1 150 100 = estimate_total_video_cost f2 150 100) ∧
    (∀ (f1 f2 : VideoFormat) (script_length tts_length : ℕ),
      estimate_total_video_cost f1 script_length tts_length =
        estimate_total_video_cost f2 script_length tts_length) :=
  ⟨fun _ _ => rfl, fun _ _ _ _ => rfl⟩

/-- C5: `check_budget_compliance` reports non-compliance exactly when
`video_count ≥ max_videos` or `daily_cost ≥ budget`; the count condition is
checked first, so when both fail the reported reason is the count limit; and
the function, being pure, returns identical results on identical arguments. -/
theorem check_budget_compliance_spec (daily_cost budget : ℚ)
    (video_count max_videos : ℕ) :
    ((check_budget_compliance daily_cost budget video_count max_videos).1 = false ↔
      max_videos ≤ video_count ∨ budget ≤ daily_cost) ∧
    (max_videos ≤ video_count →
      (check_budget_compliance daily_cost budget video_count max_videos).2 =
        ComplianceReason.maxVideosReached) ∧
    check_budget_compliance daily_cost budget video_count max_videos =
      check_budget_compliance daily_cost budget video_count max_videos := by
  unfold check_budget_compliance
  by_cases h1 : max_videos ≤ video_count
  · simp [h1]
  · by_cases h2 : budget ≤ daily_cost
    · simp [h1, h2]
    · simp [h1, h2]

/-- Witness for C5 at a concrete input where both limits are violated: the
result is non-compliant and the reported reason is the count limit. -/
theorem check_budget_compliance_spec_witness :
    (check_budget_compliance 5 3 4 3).1 = false ∧
    (check_budget_compliance 5 3 4 3).2 = ComplianceReason.maxVideosReached :=
  ⟨(check_budget_compliance_spec 5 3 4 3).1.mpr (Or.inl (by norm_num)),
    (check_budget_compliance_spec 5 3 4 3).2.1 (by norm_num)⟩

/-- C1: evaluation of `_create_job` at a state with no jobs and a zero ledger.
When the cost-tracking commit fails, the Job row stays committed
(`job_count = 1`) while the ledger increment is rolled back (totals and
`video_count` stay 0) — job creation and its ledger increment are not atomic,
against the both-or-neither guarantee.  The other two branches behave as the
claim says: a failing job commit persists nothing, and the failure-free path
persists both together. -/
theorem create_job_ledger_atomicity_failure :
    create_job (SchedulerDb.mk 0 (CostTracking.mk 0 0 0)) (1 / 2)
        PersistFailure.costCommitFails =
      (SchedulerDb.mk 1 (CostTracking.mk 0 0 0), false) ∧
    create_job (SchedulerDb.mk 0 (CostTracking.mk 0 0 0)) (1 / 2)
        PersistFailure.jobCommitFails =
      (SchedulerDb.mk 0 (CostTracking.mk 0 0 0), false) ∧
    create_job (SchedulerDb.mk 0 (CostTracking.mk 0 0 0)) (1 / 2)
        PersistFailure.noFailure =
      (SchedulerDb.mk 1 (CostTracking.mk (1 / 2) (1 / 2) 1), true) := by
  refine ⟨by decide, by decide, ?_⟩
  unfold create_job update_cost_tracking
  rw [if_neg (by decide), if_neg (by decide)]
  norm_num

/-- C10: the available-slot computation of the scheduler counts every job
created today regardless of status — prepending a today-job of any status
(FAILED and REJECTED included) increments its count — while the worker count
excludes FAILED jobs, so it never exceeds the scheduler count and the two
disagree on a store holding one FAILED and one PENDING job from today. -/
theorem daily_count_status_discrepancy :
    (∀ jobs : List JobRow,
      worker_daily_video_count jobs ≤ scheduler_daily_job_count jobs) ∧
    (∀ (jobs : List JobRow) (s : VideoStatus),
      scheduler_daily_job_count (JobRow.mk true s :: jobs) =
        scheduler_daily_job_count jobs + 1) ∧
    scheduler_daily_job_count
      [JobRow.mk true VideoStatus.failed, JobRow.mk true VideoStatus.pending] = 2 ∧
    worker_daily_video_count
      [JobRow.mk true VideoStatus.failed, JobRow.mk true VideoStatus.pending] = 1 := by
  refine ⟨?_, ?_, by decide, by decide⟩
  · intro jobs
    induction jobs with
    | nil => simp [worker_daily_video_count, scheduler_daily_job_count]
    | cons j tl ih =>
      unfold worker_daily_video_count scheduler_daily_job_count at *
      cases hct : j.created_today <;>
        cases hfs : j.status == VideoStatus.failed <;>
          simp [List.filter_cons, hct, hfs] <;> omega
  · intro jobs s
    simp [scheduler_daily_job_count, List.filter_cons]

/-- C8: when the total sample count over all formats is below `min_samples`,
`optimize_format_weights` returns status `"insufficient_data"` and leaves the
weight store unchanged, so the output weights equal the input weights
exactly. -/
theorem optimize_format_weights_insufficient_data
    (perf : VideoFormat → FormatPerf) (store : WeightStore)
    (h : (allFormats.map (fun f => (perf f).count)).sum < min_samples) :
    optimize_format_weights perf store = ("insufficient_data", store) := by
  unfold optimize_format_weights
  rw [if_pos h]

/-- Performance data with two total samples (below `min_samples` = 3). -/
def lowSamplePerf : VideoFormat → FormatPerf
  | VideoFormat.talkingObject => FormatPerf.mk 0 0 0
  | VideoFormat.absurdMotivation => FormatPerf.mk 1 (1 / 2) 3
  | VideoFormat.nothingHappens => FormatPerf.mk 1 (1 / 4) 5

/-- A weight store with no rows. -/
def emptyWeightStore : WeightStore := fun _ => none

/-- Witness for C8: with two total samples the optimizer reports
`"insufficient_data"` and the store is returned unchanged. -/
theorem optimize_format_weights_insufficient_data_witness :
    (allFormats.map (fun f => (lowSamplePerf f).count)).sum < min_samples ∧
    optimize_format_weights lowSamplePerf emptyWeightStore =
      ("insufficient_data", emptyWeightStore) :=
  ⟨by decide,
    optimize_format_weights_insufficient_data lowSamplePerf emptyWeightStore
      (by decide)⟩

/-- Invariant of the scheduling loop: starting from a non-negative budget
tracker, the costs of the jobs it creates sum to at most that budget (each
accepted slot is charged against the tracker, and a slot whose estimate
exceeds the tracker ends the loop). -/
theorem schedule_loop_sum_le (pick : ℕ → VideoFormat) :
    ∀ (n : ℕ) (budget : ℚ) (i : ℕ), 0 ≤ budget →
      ((schedule_loop pick n budget i).map Prod.snd).sum ≤ budget := by
  intro n
  induction n with
  | zero =>
    intro budget i hb
    simpa [schedule_loop] using hb
  | succ n ih =>
    intro budget i hb
    by_cases hc : estimate_total_video_cost (pick i) 150 100 > budget
    · simp only [schedule_loop, if_pos hc, List.map_nil, List.sum_nil]
      exact hb
    · have hle : estimate_total_video_cost (pick i) 150 100 ≤ budget :=
        not_lt.mp hc
      have h2 : 0 ≤ budget - estimate_total_video_cost (pick i) 150 100 := by
        linarith
      have hrec := ih (budget - estimate_total_video_cost (pick i) 150 100)
        (i + 1) h2
      simp only [schedule_loop, if_neg hc, List.map_cons, List.sum_cons]
      linarith

/-- The scheduling loop never creates more jobs than the slot count it was
given. -/
theorem schedule_loop_length_le (pick : ℕ → VideoFormat) :
    ∀ (n : ℕ) (budget : ℚ) (i : ℕ),
      (schedule_loop pick n budget i).length ≤ n := by
  intro n
  induction n with
  | zero =>
    intro budget i
    simp [schedule_loop]
  | succ n ih =>
    intro budget i
    by_cases hc : estimate_total_video_cost (pick i) 150 100 > budget
    · simp [schedule_loop, if_pos hc]
    · simp only [schedule_loop, if_neg hc, List.length_cons]
      exact Nat.succ_le_succ (ih _ _)

/-- C6: for every scheduler cycle starting from a non-negative remaining
budget, the estimated costs of the jobs created in the cycle sum to at most
the `budget_remaining` argument at cycle start; moreover a slot whose
estimated cost exceeds the running budget tracker ends the cycle with no
further jobs. -/
theorem schedule_jobs_budget_bound (pick : ℕ → VideoFormat) (max_jobs : ℕ)
    (budget_remaining : ℚ) (daily_jobs : ℕ) (h : 0 ≤ budget_remaining) :
    ((schedule_jobs pick max_jobs budget_remaining daily_jobs).map
      Prod.snd).sum ≤ budget_remaining ∧
    (∀ n i, estimate_total_video_cost (pick i) 150 100 > budget_remaining →
      schedule_loop pick (n + 1) budget_remaining i = []) := by
  constructor
  · exact schedule_loop_sum_le pick _ _ _ h
  · intro n i hgt
    simp only [schedule_loop, if_pos hgt]

/-- Witness for C6 at a concrete cycle: budget 3, one requested job, no jobs
created today. -/
theorem schedule_jobs_budget_bound_witness :
    (0 : ℚ) ≤ 3 ∧
    ((schedule_jobs (fun _ => VideoFormat.talkingObject) 1 3 0).map
      Prod.snd).sum ≤ 3 :=
  ⟨by norm_num,
    (schedule_jobs_budget_bound (fun _ => VideoFormat.talkingObject) 1 3 0
      (by norm_num)).1⟩

/-- C7: a scheduler cycle creates at most
`min(max_jobs, max(0, max_daily_videos − daily_jobs))` jobs (natural
subtraction is the `max(0, ...)` of the source), and when the number of jobs
already created today reaches the daily cap, the cycle creates no jobs at all,
regardless of the remaining budget. -/
theorem schedule_jobs_slot_bound (pick : ℕ → VideoFormat) (max_jobs : ℕ)
    (budget_remaining : ℚ) (daily_jobs : ℕ) :
    (schedule_jobs pick max_jobs budget_remaining daily_jobs).length ≤
      min max_jobs (max_daily_videos - daily_jobs) ∧
    (max_daily_videos ≤ daily_jobs →
      schedule_jobs pick max_jobs budget_remaining daily_jobs = []) := by
  constructor
  · have := schedule_loop_length_le pick
      (min max_jobs (calculate_available_job_slots daily_jobs))
      budget_remaining 0
    simpa [schedule_jobs, calculate_available_job_slots] using this
  · intro hd
    have h0 : calculate_available_job_slots daily_jobs = 0 := by
      unfold calculate_available_job_slots
      omega
    unfold schedule_jobs
    rw [h0, Nat.min_zero]
    rfl

/-- Witness for C7: with 3 jobs already created today (the daily cap), a cycle
asked for up to 5 jobs with a budget of 10 creates none. -/
theorem schedule_jobs_slot_bound_witness :
    (schedule_jobs (fun _ => VideoFormat.talkingObject) 5 10 3).length ≤
      min 5 (max_daily_videos - 3) ∧
    schedule_jobs (fun _ => VideoFormat.talkingObject) 5 10 3 = [] :=
  ⟨(schedule_jobs_slot_bound (fun _ => VideoFormat.talkingObject) 5 10 3).1,
    (schedule_jobs_slot_bound (fun _ => VideoFormat.talkingObject) 5 10 3).2
      (by decide)⟩

/-- C2 (amended): whenever `_calculate_new_weights` actually runs its
floor-and-renormalize steps (total performance score non-zero), every
pre-renormalization weight satisfies the `0.1` floor, the renormalized output
weights sum exactly to the category count 3 (the claimed sum, with no
floating-point error in exact arithmetic) over a map covering every category,
and every output weight is strictly positive.  The `0.1` floor itself holds
only before renormalization: rescaling can push a floored weight below `0.1`
(see the counterexample). -/
theorem calculate_new_weights_invariants (perf : VideoFormat → FormatPerf)
    (current_weights : VideoFormat → ℚ) (h : total_score perf ≠ 0) :
    (∀ f, 1 / 10 ≤ raw_new_weight perf current_weights f) ∧
    (allFormats.map (calculate_new_weights perf current_weights)).sum = 3 ∧
    (∀ f, 0 < calculate_new_weights perf current_weights f) := by
  have hraw : ∀ f, (1 : ℚ) / 10 ≤ raw_new_weight perf current_weights f := by
    intro f
    unfold raw_new_weight
    exact le_max_left _ _
  have hA := hraw VideoFormat.talkingObject
  have hB := hraw VideoFormat.absurdMotivation
  have hC := hraw VideoFormat.nothingHappens
  have htot : total_new_weight perf current_weights =
      raw_new_weight perf current_weights VideoFormat.talkingObject +
        raw_new_weight perf current_weights VideoFormat.absurdMotivation +
        raw_new_weight perf current_weights VideoFormat.nothingHappens :=
    sum_allFormats _
  have htpos : 0 < total_new_weight perf current_weights := by
    rw [htot]
    linarith
  have hcw : calculate_new_weights perf current_weights = fun f =>
      raw_new_weight perf current_weights f /
        total_new_weight perf current_weights * 3 := by
    unfold calculate_new_weights
    rw [if_neg h, if_pos htpos]
  refine ⟨hraw, ?_, ?_⟩
  · rw [hcw, sum_allFormats]
    have hT := ne_of_gt htpos
    field_simp
    rw [htot]
    ring
  · intro f
    rw [hcw]
    have h1 : 0 < raw_new_weight perf current_weights f :=
      lt_of_lt_of_le (by norm_num) (hraw f)
    exact mul_pos (div_pos h1 htpos) (by norm_num)

/-- Current weights 0.1 / 2 / 2: each at least the floor, but summing to 4.1,
above the category count. -/
def floorBreakWeights : VideoFormat → ℚ
  | VideoFormat.talkingObject => 1 / 10
  | _ => 2

/-- Performance data whose scores are 0 / 1 / 1, so the normalized target
shares are 0 / 0.5 / 0.5. -/
def floorBreakPerf : VideoFormat → FormatPerf
  | VideoFormat.talkingObject => FormatPerf.mk 0 0 0
  | _ => FormatPerf.mk 1 (3 / 2) 0

/-- The total score of `floorBreakPerf` is 2. -/
theorem floorBreak_total_score : total_score floorBreakPerf = 2 := by
  norm_num [total_score, allFormats, performance_score, floorBreakPerf]

/-- The pre-renormalization weights at the floor-break input are
0.1 / 1.8 / 1.8. -/
theorem floorBreak_raw_weights :
    raw_new_weight floorBreakPerf floorBreakWeights VideoFormat.talkingObject
        = 1 / 10 ∧
    raw_new_weight floorBreakPerf floorBreakWeights VideoFormat.absurdMotivation
        = 9 / 5 ∧
    raw_new_weight floorBreakPerf floorBreakWeights VideoFormat.nothingHappens
        = 9 / 5 := by
  refine ⟨?_, ?_, ?_⟩ <;>
    norm_num [raw_new_weight, floorBreak_total_score, floorBreakPerf,
      floorBreakWeights, performance_score, max_adjustment, max_def, min_def]

/-- C2 counterexample: at the floor-break input the optimizer runs its
floor-and-renormalize steps, yet the output weight of the first category is
`3/37 ≈ 0.081`, strictly below the claimed `0.1` floor. -/
theorem calculate_new_weights_floor_counterexample :
    calculate_new_weights floorBreakPerf floorBreakWeights
        VideoFormat.talkingObject = 3 / 37 ∧
    calculate_new_weights floorBreakPerf floorBreakWeights
        VideoFormat.talkingObject < 1 / 10 := by
  have hne : total_score floorBreakPerf ≠ 0 := by
    rw [floorBreak_total_score]
    norm_num
  have htnew : total_new_weight floorBreakPerf floorBreakWeights = 37 / 10 := by
    unfold total_new_weight
    rw [sum_allFormats, floorBreak_raw_weights.1, floorBreak_raw_weights.2.1,
      floorBreak_raw_weights.2.2]
    norm_num
  have hpos : 0 < total_new_weight floorBreakPerf floorBreakWeights := by
    rw [htnew]
    norm_num
  have hval : calculate_new_weights floorBreakPerf floorBreakWeights
      VideoFormat.talkingObject = 3 / 37 := by
    unfold calculate_new_weights
    rw [if_neg hne, if_pos hpos]
    rw [floorBreak_raw_weights.1, htnew]
    norm_num
  exact ⟨hval, by rw [hval]; norm_num⟩

/-- Witness for C2: the amended invariants instantiated at the floor-break
input, whose total score 2 satisfies the hypothesis. -/
theorem calculate_new_weights_invariants_witness :
    total_score floorBreakPerf ≠ 0 ∧
    (allFormats.map
      (calculate_new_weights floorBreakPerf floorBreakWeights)).sum = 3 :=
  ⟨by rw [floorBreak_total_score]; norm_num,
    (calculate_new_weights_invariants floorBreakPerf floorBreakWeights
      (by rw [floorBreak_total_score]; norm_num)).2.1⟩

/-- Scenario C performance data: one sample per category with view
percentages 1, 1/6 and 0 and no views, giving performance scores
0.7 / 0.2 / 0.1 — already normalized (they sum to 1), as the scenario
stipulates. -/
def scenarioCPerf : VideoFormat → FormatPerf
  | VideoFormat.talkingObject => FormatPerf.mk 1 1 0
  | VideoFormat.absurdMotivation => FormatPerf.mk 1 (1 / 6) 0
  | VideoFormat.nothingHappens => FormatPerf.mk 1 0 0

/-- Scenario C current weights: all 1.0. -/
def scenarioCWeights : VideoFormat → ℚ := fun _ => 1

/-- The Scenario C performance scores are 0.7 / 0.2 / 0.1 and their total
is 1. -/
theorem scenarioC_scores :
    performance_score (scenarioCPerf VideoFormat.talkingObject) = 7 / 10 ∧
    performance_score (scenarioCPerf VideoFormat.absurdMotivation) = 2 / 10 ∧
    performance_score (scenarioCPerf VideoFormat.nothingHappens) = 1 / 10 ∧
    total_score scenarioCPerf = 1 := by
  refine ⟨?_, ?_, ?_, ?_⟩ <;>
    norm_num [total_score, allFormats, performance_score, scenarioCPerf]

/-- Every Scenario C pre-renormalization weight is 0.8: each normalized
target share is at most 0.7, so each target minus the current weight 1.0 is
at most −0.3 and clamps to −0.2. -/
theorem scenarioC_raw_weights :
    ∀ f, raw_new_weight scenarioCPerf scenarioCWeights f = 4 / 5 := by
  intro f
  cases f <;>
    norm_num [raw_new_weight, scenarioC_scores.2.2.2, scenarioCPerf,
      scenarioCWeights, performance_score, max_adjustment, max_def, min_def]

/-- C3 counterexample: on Scenario C inputs (normalized scores 0.7/0.2/0.1,
current weights all 1.0, max adjustment 0.2) the raw pre-renormalization
weight of category A is 0.8 — not the claimed 1.2 — and its final
renormalized weight is exactly 1, not ≈ 1.286. -/
theorem scenario_c_counterexample :
    raw_new_weight scenarioCPerf scenarioCWeights VideoFormat.talkingObject
        = 4 / 5 ∧
    raw_new_weight scenarioCPerf scenarioCWeights VideoFormat.talkingObject
        ≠ 6 / 5 ∧
    calculate_new_weights scenarioCPerf scenarioCWeights
        VideoFormat.talkingObject = 1 := by
  have hne : total_score scenarioCPerf ≠ 0 := by
    rw [scenarioC_scores.2.2.2]
    norm_num
  have htnew : total_new_weight scenarioCPerf scenarioCWeights = 12 / 5 := by
    unfold total_new_weight
    rw [sum_allFormats, scenarioC_raw_weights, scenarioC_raw_weights,
      scenarioC_raw_weights]
    norm_num
  have hpos : 0 < total_new_weight scenarioCPerf scenarioCWeights := by
    rw [htnew]
    norm_num
  refine ⟨scenarioC_raw_weights _, ?_, ?_⟩
  · rw [scenarioC_raw_weights]
    norm_num
  · unfold calculate_new_weights
    rw [if_neg hne, if_pos hpos]
    rw [scenarioC_raw_weights, htnew]
    norm_num

/-- C3 (amended): on Scenario C inputs every target share minus the current
weight 1.0 is at most −0.3 and clamps to −maxAdjustment = −0.2, so the raw
weights before renormalization are 0.8 for every category (A included), and
after renormalization to sum 3 every weight is exactly 1.0. -/
theorem scenario_c_amended :
    (∀ f, raw_new_weight scenarioCPerf scenarioCWeights f = 4 / 5) ∧
    (∀ f, calculate_new_weights scenarioCPerf scenarioCWeights f = 1) := by
  have hne : total_score scenarioCPerf ≠ 0 := by
    rw [scenarioC_scores.2.2.2]
    norm_num
  have htnew : total_new_weight scenarioCPerf scenarioCWeights = 12 / 5 := by
    unfold total_new_weight
    rw [sum_allFormats, scenarioC_raw_weights, scenarioC_raw_weights,
      scenarioC_raw_weights]
    norm_num
  have hpos : 0 < total_new_weight scenarioCPerf scenarioCWeights := by
    rw [htnew]
    norm_num
  refine ⟨scenarioC_raw_weights, ?_⟩
  intro f
  unfold calculate_new_weights
  rw [if_neg hne, if_pos hpos]
  rw [scenarioC_raw_weights, htnew]
  norm_num

/-- C4 (amended): for any store whose weights are positive,
`manual_optimization` applies the raw additive adjustments with the `0.1`
floor on every adjusted weight (before renormalization), renormalizes the
persisted weight set to sum to the category count 3, reports success with no
cooldown or minimum-sample gate anywhere on the path (the result is
`"success"` for every input), and persists each existing row through the
shared `_apply_new_weights` helper, whose recorded reason is
`"Automatic optimization based on performance"` — not a reason recording a
manual update. -/
theorem manual_optimization_spec (store : WeightStore)
    (adjustments : VideoFormat → Option ℚ)
    (hpos : ∀ f, 0 < get_current_weight store f) :
    (manual_optimization store adjustments).1 = "success" ∧
    (∀ f a, adjustments f = some a →
      1 / 10 ≤ manual_adjusted_weight (get_current_weight store) adjustments f) ∧
    (allFormats.map (fun f =>
      ((manual_optimization store adjustments).2 f).elim 0
        WeightRecord.weight)).sum = 3 ∧
    (∀ f r, store f = some r →
      ((manual_optimization store adjustments).2 f).elim ""
        WeightRecord.reason = "Automatic optimization based on performance") := by
  have hadj : ∀ f,
      0 < manual_adjusted_weight (get_current_weight store) adjustments f := by
    intro f
    unfold manual_adjusted_weight
    cases adjustments f with
    | none => exact hpos f
    | some a => exact lt_of_lt_of_le (by norm_num) (le_max_left _ _)
  have hA := hadj VideoFormat.talkingObject
  have hB := hadj VideoFormat.absurdMotivation
  have hC := hadj VideoFormat.nothingHappens
  have hsum : (allFormats.map
      (manual_adjusted_weight (get_current_weight store) adjustments)).sum =
      manual_adjusted_weight (get_current_weight store) adjustments
          VideoFormat.talkingObject +
        manual_adjusted_weight (get_current_weight store) adjustments
          VideoFormat.absurdMotivation +
        manual_adjusted_weight (get_current_weight store) adjustments
          VideoFormat.nothingHappens :=
    sum_allFormats _
  have htpos : 0 < (allFormats.map
      (manual_adjusted_weight (get_current_weight store) adjustments)).sum := by
    rw [hsum]
    linarith
  have hnw : manual_new_weights store adjustments = fun f =>
      manual_adjusted_weight (get_current_weight store) adjustments f /
        (allFormats.map
          (manual_adjusted_weight (get_current_weight store) adjustments)).sum
        * 3 := by
    unfold manual_new_weights
    rw [if_pos htpos]
  refine ⟨rfl, ?_, ?_, ?_⟩
  · intro f a hfa
    unfold manual_adjusted_weight
    rw [hfa]
    exact le_max_left _ _
  · have hweights : (fun f =>
        ((manual_optimization store adjustments).2 f).elim 0
          WeightRecord.weight) = manual_new_weights store adjustments :=
      funext fun f => apply_new_weights_weight store _ f
    rw [hweights, hnw, sum_allFormats]
    have hT := ne_of_gt htpos
    field_simp
    rw [hsum]
    ring
  · intro f r hfr
    show (apply_new_weights store (manual_new_weights store adjustments)
      f).elim "" WeightRecord.reason = _
    simp [apply_new_weights, hfr]

/-- A weight store holding a seed row (weight 1) for every category. -/
def seededStore : WeightStore := fun _ => some (WeightRecord.mk 1 "seed")

/-- The Scenario D manual adjustment: +0.5 to the first category, no change
elsewhere. -/
def scenarioDAdjustments : VideoFormat → Option ℚ
  | VideoFormat.talkingObject => some (1 / 2)
  | _ => none

/-- The persisted weights of the Scenario D manual override: the adjusted set
1.5 / 1 / 1 (sum 3.5) renormalized to 9/7, 6/7, 6/7. -/
theorem scenarioD_new_weights :
    manual_new_weights seededStore scenarioDAdjustments
        VideoFormat.talkingObject = 9 / 7 ∧
    manual_new_weights seededStore scenarioDAdjustments
        VideoFormat.absurdMotivation = 6 / 7 ∧
    manual_new_weights seededStore scenarioDAdjustments
        VideoFormat.nothingHappens = 6 / 7 := by
  have hadjA : manual_adjusted_weight (get_current_weight seededStore)
      scenarioDAdjustments VideoFormat.talkingObject = 3 / 2 := by
    norm_num [manual_adjusted_weight, get_current_weight, seededStore,
      scenarioDAdjustments, max_def]
  have hadjB : manual_adjusted_weight (get_current_weight seededStore)
      scenarioDAdjustments VideoFormat.absurdMotivation = 1 := by
    norm_num [manual_adjusted_weight, get_current_weight, seededStore,
      scenarioDAdjustments]
  have hadjC : manual_adjusted_weight (get_current_weight seededStore)
      scenarioDAdjustments VideoFormat.nothingHappens = 1 := by
    norm_num [manual_adjusted_weight, get_current_weight, seededStore,
      scenarioDAdjustments]
  have hsum : (allFormats.map
      (manual_adjusted_weight (get_current_weight seededStore)
        scenarioDAdjustments)).sum = 7 / 2 := by
    rw [sum_allFormats, hadjA, hadjB, hadjC]
    norm_num
  have htpos : (0 : ℚ) < 7 / 2 := by norm_num
  refine ⟨?_, ?_, ?_⟩
  · unfold manual_new_weights
    rw [if_pos (hsum ▸ htpos), hadjA, hsum]
    norm_num
  · unfold manual_new_weights
    rw [if_pos (hsum ▸ htpos), hadjB, hsum]
    norm_num
  · unfold manual_new_weights
    rw [if_pos (hsum ▸ htpos), hadjC, hsum]
    norm_num

/-- C4 counterexample: the Scenario D manual override (+0.5 to category A on
an all-seeded store) persists the renormalized weight 9/7 for category A with
reason `"Automatic optimization based on performance"`, which is not a reason
recording a manual update. -/
theorem manual_optimization_reason_counterexample :
    (manual_optimization seededStore scenarioDAdjustments).2
        VideoFormat.talkingObject =
      some (WeightRecord.mk (9 / 7)
        "Automatic optimization based on performance") ∧
    "Automatic optimization based on performance" ≠ "manual update" := by
  constructor
  · show some (WeightRecord.mk
      (manual_new_weights seededStore scenarioDAdjustments
        VideoFormat.talkingObject)
      "Automatic optimization based on performance") = _
    rw [scenarioD_new_weights.1]
  · decide

/-- Witness for C4: the amended theorem instantiated at the Scenario D
inputs. -/
theorem manual_optimization_spec_witness :
    (manual_optimization seededStore scenarioDAdjustments).1 = "success" ∧
    (allFormats.map (fun f =>
      ((manual_optimization seededStore scenarioDAdjustments).2 f).elim 0
        WeightRecord.weight)).sum = 3 :=
  ⟨(manual_optimization_spec seededStore scenarioDAdjustments
      (fun f => by unfold get_current_weight seededStore; norm_num)).1,
    (manual_optimization_spec seededStore scenarioDAdjustments
      (fun f => by unfold get_current_weight seededStore; norm_num)).2.2.1⟩

end DumbVideo
